import Mathlib

/-!
Shallow embedding of the section/test orchestration and result-aggregation
engine of the repository, as implemented in
`GpioComprehensiveTest.cpp` (class `GpioComprehensiveTest`),
`main/SpiComprehensiveTest.cpp` (`runTest`, `printSectionResults`,
`runSpecificSection`) and `PwmComprehensiveTest.cpp`
(`run_pwm_comprehensive_tests` and the per-section runners).

Modelling conventions:
- C++ `double` durations become `ℚ`; `unsigned long` micros become `Nat`.
- A C++ floating-point division `x / y` with `y == 0` does not produce a
  finite number (NaN or ±inf); it is modelled as `none` by `floatDiv`.
- A test callable may terminate abnormally (throw).  A callable is a record
  of the `TestResult` it returns on normal termination, an optional thrown
  exception, and the wall-clock duration the runner measures around the
  invocation (wall time is an environment input to the model).
- `std::map<GpioTestSection, TestSection>` is modelled as its ordered list
  of entries; the source never inserts or erases after construction, only
  updates values in place, so the entry list order is invariant.
-/

/-- C++ floating-point division `x / y`: a finite quotient when `y ≠ 0`;
`none` models the NaN/infinite value produced when the denominator is zero
(the division is still performed by the code, there is no guard). -/
def floatDiv (x y : ℚ) : Option ℚ :=
  if y = 0 then none else some (x / y)

namespace GpioTest

/-- `enum class GpioTestSection` from GpioComprehensiveTest.cpp (lines 9-17). -/
inductive GpioTestSection where
  | BASIC_GPIO_OPERATIONS
  | GPIO_INTERRUPTS
  | GPIO_PWM_FUNCTIONALITY
  | GPIO_ANALOG_READS
  | GPIO_STRESS_TESTING
  | GPIO_EDGE_CASES
  | ALL_SECTIONS
deriving DecidableEq, Repr

/-- `struct TestResult` (lines 20-28): name, pass flag, message, duration. -/
structure TestResult where
  test_name : String
  passed : Bool
  message : String
  execution_time_ms : ℚ
deriving DecidableEq, Repr

/-- One entry of `std::vector<std::function<TestResult()>> tests`: invoking
the callable either returns `result` normally or throws (`throws = some e`).
`measured` is the wall-clock duration the runner measures around the call
(`high_resolution_clock` at lines 204-208); it is supplied by the
environment since real time is outside the embedding. -/
structure TestCallable where
  result : TestResult
  throws : Option String
  measured : ℚ
deriving DecidableEq, Repr

/-- `struct TestSection` (lines 31-40). -/
structure TestSection where
  name : String
  description : String
  tests : List TestCallable
  enabled : Bool
  timeout_seconds : Int
deriving DecidableEq, Repr

/-- The state of a `GpioComprehensiveTest` object (lines 55-59): the
`std::map` of sections as its ordered entry list, and the accumulated
`all_results` vector.  (`TestConfig config` is never read by any of the
modelled operations — `stop_on_failure` in particular is never consulted —
so it is omitted.) -/
structure GpioComprehensiveTest where
  test_sections : List (GpioTestSection × TestSection)
  all_results : List TestResult
deriving DecidableEq, Repr

/-- `test_sections.find(section)`: lookup in the entry list. -/
def findSection (m : List (GpioTestSection × TestSection)) (k : GpioTestSection) :
    Option TestSection :=
  match m with
  | [] => none
  | (k', ts) :: rest => if k' = k then some ts else findSection rest k

/-- In-place update of the value stored under an existing key, as done by
`test_sections[section].field = v` after a successful `find`. -/
def updateSection (m : List (GpioTestSection × TestSection)) (k : GpioTestSection)
    (f : TestSection → TestSection) : List (GpioTestSection × TestSection) :=
  m.map fun e => if e.1 = k then (e.1, f e.2) else e

/-- The `TestResult` recorded for one normally-returning callable: the
callable's returned result with `execution_time_ms` overwritten by the
runner's wall-clock measurement (line 208). -/
def retResult (tc : TestCallable) : TestResult :=
  { tc.result with execution_time_ms := tc.measured }

/-- The loop body of `runSection` (lines 201-226) over the test vector:
returns the list of results pushed (in order) and the first exception to
escape, if any.  A callable that throws contributes no result, and the
exception aborts the rest of the loop (C++ exception propagation); results
pushed before the throw remain pushed. -/
def runCases : List TestCallable → List TestResult × Option String
  | [] => ([], none)
  | tc :: rest =>
    match tc.throws with
    | some e => ([], some e)
    | none =>
      let res := retResult tc
      let (rs, exn) := runCases rest
      (res :: rs, exn)

/-- The numbers printed by the section summary (lines 229-233).
`success_rate` is `passed * 100.0 / test_section.tests.size()` — an
unguarded floating-point division, `none` when the section has no tests. -/
structure SectionSummary where
  total_tests : Nat
  passed : Nat
  failed : Nat
  success_rate : Option ℚ
deriving DecidableEq, Repr

/-- The observable effect of one `runSection` call: the new object state,
the section summary if one was printed, and the exception escaping the
call, if any. -/
structure RunSectionOutput where
  state : GpioComprehensiveTest
  summary : Option SectionSummary
  exn : Option String
deriving DecidableEq, Repr

/-- `void runSection(GpioTestSection section)` (lines 183-234):
unknown section → error message, return; disabled section → message,
return; otherwise run every test in order, appending each result to
`all_results`, then print the section summary. -/
def runSection (st : GpioComprehensiveTest) (sec : GpioTestSection) : RunSectionOutput :=
  match findSection st.test_sections sec with
  | none => ⟨st, none, none⟩
  | some ts =>
    if ts.enabled then
      match runCases ts.tests with
      | (rs, some e) => ⟨{ st with all_results := st.all_results ++ rs }, none, some e⟩
      | (rs, none) =>
        ⟨{ st with all_results := st.all_results ++ rs },
         some ⟨ts.tests.length,
               rs.countP (fun r => r.passed),
               rs.countP (fun r => !r.passed),
               floatDiv ((rs.countP (fun r => r.passed) : ℚ) * 100) (ts.tests.length : ℚ)⟩,
         none⟩
    else ⟨st, none, none⟩

/-- Sequentially run a list of sections (the loop of
`runSelectedSections`, lines 387-391); an exception escaping one
`runSection` call propagates and aborts the remaining iterations. -/
def runSections (st : GpioComprehensiveTest) :
    List GpioTestSection → GpioComprehensiveTest × Option String
  | [] => (st, none)
  | k :: rest =>
    let r := runSection st k
    match r.exn with
    | some e => (r.state, some e)
    | none => runSections r.state rest

/-- `void runSelectedSections(const std::vector<GpioTestSection>&)`
(lines 387-391): calls `runSection` on each given section in order. -/
def runSelectedSections (st : GpioComprehensiveTest) (secs : List GpioTestSection) :
    GpioComprehensiveTest × Option String :=
  runSections st secs

/-- The section keys iterated by `runAllSections` (lines 239-243): every
map entry in order, skipping `ALL_SECTIONS`. -/
def runAllKeys (st : GpioComprehensiveTest) : List GpioTestSection :=
  (st.test_sections.map Prod.fst).filter (fun k => !decide (k = GpioTestSection.ALL_SECTIONS))

/-- The numbers printed by `printOverallSummary` (lines 304-325).
`success_rate` is `passed * 100.0 / total_tests` — again unguarded. -/
structure OverallSummary where
  total_tests : Nat
  passed : Nat
  failed : Nat
  success_rate : Option ℚ
  total_time : ℚ
deriving DecidableEq, Repr

/-- `void printOverallSummary()` (lines 304-325), as the numbers it reports. -/
def printOverallSummary (st : GpioComprehensiveTest) : OverallSummary :=
  ⟨st.all_results.length,
   st.all_results.countP (fun r => r.passed),
   st.all_results.countP (fun r => !r.passed),
   floatDiv ((st.all_results.countP (fun r => r.passed) : ℚ) * 100) (st.all_results.length : ℚ),
   (st.all_results.map (fun r => r.execution_time_ms)).sum⟩

/-- `void runAllSections()` (lines 236-246): `runSection` on every map
entry except `ALL_SECTIONS`, then `printOverallSummary`. -/
def runAllSections (st : GpioComprehensiveTest) :
    GpioComprehensiveTest × Option OverallSummary × Option String :=
  match runSections st (runAllKeys st) with
  | (st', none) => (st', some (printOverallSummary st'), none)
  | (st', some e) => (st', none, some e)

/-- `void enableSection(GpioTestSection, bool)` (lines 248-252): guarded by
`find`; a silent no-op on an unknown section. -/
def enableSection (st : GpioComprehensiveTest) (sec : GpioTestSection) (enable : Bool) :
    GpioComprehensiveTest :=
  if (findSection st.test_sections sec).isSome then
    let m := updateSection st.test_sections sec (fun ts => { ts with enabled := enable })
    { st with test_sections := m }
  else st

/-- `void enableAllSections()` (lines 254-260): sets `enabled := true` on
every entry whose key is not `ALL_SECTIONS`. -/
def enableAllSections (st : GpioComprehensiveTest) : GpioComprehensiveTest :=
  { st with test_sections := st.test_sections.map (fun e =>
      if e.1 = GpioTestSection.ALL_SECTIONS then e else (e.1, { e.2 with enabled := true })) }

/-- `void disableAllSections()` (lines 262-268). -/
def disableAllSections (st : GpioComprehensiveTest) : GpioComprehensiveTest :=
  { st with test_sections := st.test_sections.map (fun e =>
      if e.1 = GpioTestSection.ALL_SECTIONS then e else (e.1, { e.2 with enabled := false })) }

/-- `bool isSectionEnabled(GpioTestSection) const` (lines 270-273):
`false` on an unknown section. -/
def isSectionEnabled (st : GpioComprehensiveTest) (sec : GpioTestSection) : Bool :=
  match findSection st.test_sections sec with
  | some ts => ts.enabled
  | none => false

/-- `int getSectionTestCount(GpioTestSection) const` (lines 275-278):
`0` on an unknown section. -/
def getSectionTestCount (st : GpioComprehensiveTest) (sec : GpioTestSection) : Nat :=
  match findSection st.test_sections sec with
  | some ts => ts.tests.length
  | none => 0

/-- `std::vector<GpioTestSection> getEnabledSections() const`
(lines 280-288): enabled entries other than `ALL_SECTIONS`, in map order. -/
def getEnabledSections (st : GpioComprehensiveTest) : List GpioTestSection :=
  (st.test_sections.filter (fun e =>
      !decide (e.1 = GpioTestSection.ALL_SECTIONS) && e.2.enabled)).map Prod.fst

/-- `int getTotalTestCount() const` (lines 327-329). -/
def getTotalTestCount (st : GpioComprehensiveTest) : Nat :=
  st.all_results.length

/-- `int getPassedTestCount() const` (lines 331-337). -/
def getPassedTestCount (st : GpioComprehensiveTest) : Nat :=
  st.all_results.countP (fun r => r.passed)

/-- `int getFailedTestCount() const` (lines 339-345). -/
def getFailedTestCount (st : GpioComprehensiveTest) : Nat :=
  st.all_results.countP (fun r => !r.passed)

/-- `double getTotalExecutionTime() const` (lines 347-353). -/
def getTotalExecutionTime (st : GpioComprehensiveTest) : ℚ :=
  (st.all_results.map (fun r => r.execution_time_ms)).sum

/-- `double getAverageExecutionTime() const` (lines 355-358): this one IS
guarded — `if (all_results.empty()) return 0.0;` — so the division only
happens with a non-zero denominator and the result is a plain rational. -/
def getAverageExecutionTime (st : GpioComprehensiveTest) : ℚ :=
  if st.all_results.isEmpty then 0
  else getTotalExecutionTime st / (st.all_results.length : ℚ)

/-- `void clearResults()` (lines 361-363): `all_results.clear()`. -/
def clearResults (st : GpioComprehensiveTest) : GpioComprehensiveTest :=
  { st with all_results := [] }

/-- `bool hasFailures() const` (lines 365-370). -/
def hasFailures (st : GpioComprehensiveTest) : Bool :=
  st.all_results.any (fun r => !r.passed)

/-- `void setSectionTimeout(GpioTestSection, int)` (lines 377-381):
guarded by `find`; a silent no-op on an unknown section. -/
def setSectionTimeout (st : GpioComprehensiveTest) (sec : GpioTestSection)
    (timeout_seconds : Int) : GpioComprehensiveTest :=
  if (findSection st.test_sections sec).isSome then
    let m := updateSection st.test_sections sec (fun ts => { ts with timeout_seconds := timeout_seconds })
    { st with test_sections := m }
  else st

/-- No callable stored anywhere in the registry throws — the hypothesis
under which the C++ callables behave as their `std::function<TestResult()>`
type advertises. -/
def noThrowState (st : GpioComprehensiveTest) : Bool :=
  st.test_sections.all (fun e => e.2.tests.all (fun tc => tc.throws.isNone))

/-- The outcomes one `runSection` call on `k` appends to `all_results`,
assuming no callable of `k` throws: the section's cases mapped to their
recorded results when `k` is registered and enabled, nothing otherwise. -/
def sectionOutcomes (m : List (GpioTestSection × TestSection)) (k : GpioTestSection) :
    List TestResult :=
  match findSection m k with
  | some ts => if ts.enabled then ts.tests.map retResult else []
  | none => []

end GpioTest

namespace SpiTest

/-- `struct TestResult` from main/SpiComprehensiveTest.cpp (lines 10-14):
pass flag, message, duration in microseconds. -/
structure TestResult where
  passed : Bool
  message : String
  duration : Nat
deriving DecidableEq, Repr

/-- A `bool (*testFunc)()` callable: `ret` is the value it returns on
normal termination; `throws = true` means invoking it terminates
abnormally (throws). -/
structure SpiCallable where
  ret : Bool
  throws : Bool
deriving DecidableEq, Repr

/-- `TestResult runTest(bool (*testFunc)(), const String&)` (lines
274-298): invokes the callable inside try/catch; a normal `true` return
gives PASSED, a normal `false` return gives FAILED, and ANY thrown
exception is caught (`catch (...)`) and converted to a failed result with
the synthetic message ERROR.  `measured` is the `micros()` wall time
around the call, an environment input. -/
def runTest (testFunc : SpiCallable) (measured : Nat) : TestResult :=
  if testFunc.throws then
    { passed := false, message := "ERROR", duration := measured }
  else if testFunc.ret then
    { passed := true, message := "PASSED", duration := measured }
  else
    { passed := false, message := "FAILED", duration := measured }

/-- `struct SectionResult` (lines 17-24), minus the raw result array
(not read by `printSectionResults`). -/
structure SectionResult where
  sectionName : String
  totalTests : Nat
  passedTests : Nat
  failedTests : Nat
  totalDuration : Nat
deriving DecidableEq, Repr

/-- The two derived numbers `printSectionResults` reports. -/
structure SectionReport where
  success_rate : Option ℚ
  average_duration : Option ℚ
deriving DecidableEq, Repr

/-- `void printSectionResults(const SectionResult&)` (lines 416-424):
`(float)passedTests / totalTests * 100` and
`(float)totalDuration / totalTests` — both divisions are unguarded,
so both are `none` (NaN) when `totalTests` is zero. -/
def printSectionResults (s : SectionResult) : SectionReport :=
  { success_rate := (floatDiv (s.passedTests : ℚ) (s.totalTests : ℚ)).map (fun q => q * 100),
    average_duration := floatDiv (s.totalDuration : ℚ) (s.totalTests : ℚ) }

end SpiTest

namespace PwmTest

/-- `enum TestSection` from PwmComprehensiveTest.h (lines 13-22),
without the `SECTION_MAX` sentinel. -/
inductive TestSection where
  | SECTION_BASIC_PWM
  | SECTION_FREQUENCY_TESTS
  | SECTION_DUTY_CYCLE_TESTS
  | SECTION_PIN_TESTS
  | SECTION_PERFORMANCE_TESTS
  | SECTION_ERROR_HANDLING
  | SECTION_STRESS_TESTS
deriving DecidableEq, Repr

/-- `enum TestGroup` from PwmComprehensiveTest.h (lines 25-31),
without the `GROUP_MAX` sentinel. -/
inductive TestGroup where
  | GROUP_INITIALIZATION
  | GROUP_FUNCTIONALITY
  | GROUP_VALIDATION
  | GROUP_CLEANUP
deriving DecidableEq, Repr

/-- `struct TestResult` from PwmComprehensiveTest.cpp (lines 35-40);
`error_message` is a nullable `const char*`. -/
structure TestResult where
  passed : Bool
  test_name : String
  error_message : Option String
  execution_time_ms : Nat
deriving DecidableEq, Repr

/-- Results of the five hardware-touching PWM test bodies
(`test_pwm_initialization`, `test_pwm_frequency_setting`,
`test_pwm_duty_cycle_setting`, `test_pwm_output_validation`,
`test_pwm_cleanup`).  Their bodies wrap ESP-IDF ledc driver calls —
external collaborators outside the orchestration core — so each outcome
is a boolean supplied by the environment. -/
structure PwmEnv where
  init_ok : Bool
  freq_ok : Bool
  duty_ok : Bool
  validation_ok : Bool
  cleanup_ok : Bool
deriving DecidableEq, Repr

/-- The global test state of PwmComprehensiveTest.cpp (lines 43-46):
the per-section and per-group enable flags and the filled prefix of
`test_results[100]` (of length `test_result_count`). -/
structure PwmState where
  test_section_enabled : TestSection → Bool
  test_group_enabled : TestGroup → Bool
  test_results : List TestResult

/-- `void run_basic_pwm_tests()` (lines 74-145): skips when the section
is disabled; otherwise appends one result per enabled group
(initialization, two functionality results, validation, cleanup), with
the literal names, ternary error messages and durations of the source. -/
def run_basic_pwm_tests (env : PwmEnv) (st : PwmState) : PwmState :=
  if !(st.test_section_enabled TestSection.SECTION_BASIC_PWM) then st
  else
    let st1 :=
      if st.test_group_enabled TestGroup.GROUP_INITIALIZATION then
        { st with test_results := st.test_results ++
            [⟨env.init_ok, "PWM Timer Configuration",
              if env.init_ok then none else some "Failed to configure PWM timer", 100⟩] }
      else st
    let st2 :=
      if st1.test_group_enabled TestGroup.GROUP_FUNCTIONALITY then
        { st1 with test_results := st1.test_results ++
            [⟨env.freq_ok, "PWM Frequency Setting",
              if env.freq_ok then none else some "Failed to set PWM frequency", 150⟩,
             ⟨env.duty_ok, "PWM Duty Cycle Setting",
              if env.duty_ok then none else some "Failed to set PWM duty cycle", 120⟩] }
      else st1
    let st3 :=
      if st2.test_group_enabled TestGroup.GROUP_VALIDATION then
        { st2 with test_results := st2.test_results ++
            [⟨env.validation_ok, "PWM Output Validation",
              if env.validation_ok then none else some "PWM output validation failed", 200⟩] }
      else st2
    if st3.test_group_enabled TestGroup.GROUP_CLEANUP then
      { st3 with test_results := st3.test_results ++
          [⟨env.cleanup_ok, "PWM Cleanup",
            if env.cleanup_ok then none else some "Failed to cleanup PWM", 80⟩] }
    else st3

/-- `void run_frequency_tests()` (lines 148-170): five placeholder
results, one per entry of `test_frequencies[]`. -/
def run_frequency_tests (st : PwmState) : PwmState :=
  if !(st.test_section_enabled TestSection.SECTION_FREQUENCY_TESTS) then st
  else { st with test_results := st.test_results ++
      List.replicate 5 (⟨true, "Frequency Test", none, 50⟩ : TestResult) }

/-- `void run_duty_cycle_tests()` (lines 173-195): five placeholder
results, one per entry of `test_duty_cycles[]`. -/
def run_duty_cycle_tests (st : PwmState) : PwmState :=
  if !(st.test_section_enabled TestSection.SECTION_DUTY_CYCLE_TESTS) then st
  else { st with test_results := st.test_results ++
      List.replicate 5 (⟨true, "Duty Cycle Test", none, 50⟩ : TestResult) }

/-- `void run_pin_tests()` (lines 198-220): five placeholder results,
one per entry of `test_pins[]`. -/
def run_pin_tests (st : PwmState) : PwmState :=
  if !(st.test_section_enabled TestSection.SECTION_PIN_TESTS) then st
  else { st with test_results := st.test_results ++
      List.replicate 5 (⟨true, "Pin Test", none, 50⟩ : TestResult) }

/-- `void run_performance_tests()` (lines 223-240): one placeholder result. -/
def run_performance_tests (st : PwmState) : PwmState :=
  if !(st.test_section_enabled TestSection.SECTION_PERFORMANCE_TESTS) then st
  else { st with test_results := st.test_results ++
      [(⟨true, "High Frequency Switching", none, 1000⟩ : TestResult)] }

/-- `void run_error_handling_tests()` (lines 243-260): one placeholder result. -/
def run_error_handling_tests (st : PwmState) : PwmState :=
  if !(st.test_section_enabled TestSection.SECTION_ERROR_HANDLING) then st
  else { st with test_results := st.test_results ++
      [(⟨true, "Invalid Frequency Test", none, 50⟩ : TestResult)] }

/-- `void run_stress_tests()` (lines 263-280): one placeholder result. -/
def run_stress_tests (st : PwmState) : PwmState :=
  if !(st.test_section_enabled TestSection.SECTION_STRESS_TESTS) then st
  else { st with test_results := st.test_results ++
      [(⟨true, "Continuous Operation", none, 5000⟩ : TestResult)] }

/-- `void run_pwm_comprehensive_tests()` (lines 462-479): FIRST resets the
accumulated results (`test_result_count = 0;`, line 466), then runs the
seven sections in order. -/
def run_pwm_comprehensive_tests (env : PwmEnv) (st : PwmState) : PwmState :=
  let st0 := { st with test_results := [] }
  let st1 := run_basic_pwm_tests env st0
  let st2 := run_frequency_tests st1
  let st3 := run_duty_cycle_tests st2
  let st4 := run_pin_tests st3
  let st5 := run_performance_tests st4
  let st6 := run_error_handling_tests st5
  run_stress_tests st6

/-- The default global state (lines 43-46): every section and group flag
`true`, no accumulated results. -/
def pwmDefaultState : PwmState :=
  ⟨fun _ => true, fun _ => true, []⟩

end PwmTest

namespace GpioTest

theorem runSection_not_found (st : GpioComprehensiveTest) (k : GpioTestSection)
    (h : findSection st.test_sections k = none) : runSection st k = ⟨st, none, none⟩ := by
  unfold runSection
  rw [h]

theorem runSection_disabled (st : GpioComprehensiveTest) (k : GpioTestSection)
    (ts : TestSection) (hf : findSection st.test_sections k = some ts)
    (hd : ts.enabled = false) : runSection st k = ⟨st, none, none⟩ := by
  unfold runSection
  rw [hf]
  simp [hd]

theorem runCases_no_throw (tests : List TestCallable)
    (h : ∀ tc ∈ tests, tc.throws = none) :
    runCases tests = (tests.map retResult, none) := by
  induction tests with
  | nil => rfl
  | cons tc rest ih =>
    have h1 : tc.throws = none := h tc (List.mem_cons_self tc rest)
    have h2 : ∀ x ∈ rest, x.throws = none := fun x hx => h x (List.mem_cons_of_mem _ hx)
    simp [runCases, h1, ih h2]

theorem runSection_enabled_no_throw (st : GpioComprehensiveTest) (k : GpioTestSection)
    (ts : TestSection) (hf : findSection st.test_sections k = some ts)
    (he : ts.enabled = true) (h : ∀ tc ∈ ts.tests, tc.throws = none) :
    runSection st k =
      ⟨{ st with all_results := st.all_results ++ ts.tests.map retResult },
       some ⟨ts.tests.length,
             (ts.tests.map retResult).countP (fun r => r.passed),
             (ts.tests.map retResult).countP (fun r => !r.passed),
             floatDiv (((ts.tests.map retResult).countP (fun r => r.passed) : ℚ) * 100)
               (ts.tests.length : ℚ)⟩,
       none⟩ := by
  unfold runSection
  rw [hf]
  simp [he, runCases_no_throw ts.tests h]

theorem runCases_first_throw (pre : List TestCallable) (tcf : TestCallable)
    (rest : List TestCallable) (e : String)
    (hp : ∀ tc ∈ pre, tc.throws = none) (ht : tcf.throws = some e) :
    runCases (pre ++ tcf :: rest) = (pre.map retResult, some e) := by
  induction pre with
  | nil => simp [runCases, ht]
  | cons tc pre ih =>
    have h1 : tc.throws = none := hp tc (List.mem_cons_self _ _)
    have h2 : ∀ x ∈ pre, x.throws = none := fun x hx => hp x (List.mem_cons_of_mem _ hx)
    simp [runCases, h1, ih h2]

theorem runSection_first_throw (st : GpioComprehensiveTest) (k : GpioTestSection)
    (ts : TestSection) (pre : List TestCallable) (tcf : TestCallable)
    (rest : List TestCallable) (e : String)
    (hf : findSection st.test_sections k = some ts) (he : ts.enabled = true)
    (hsplit : ts.tests = pre ++ tcf :: rest)
    (hp : ∀ tc ∈ pre, tc.throws = none) (ht : tcf.throws = some e) :
    runSection st k =
      ⟨{ st with all_results := st.all_results ++ pre.map retResult }, none, some e⟩ := by
  unfold runSection
  rw [hf]
  simp [he, hsplit, runCases_first_throw pre tcf rest e hp ht]

theorem findSection_mem (m : List (GpioTestSection × TestSection)) (k : GpioTestSection)
    (ts : TestSection) (h : findSection m k = some ts) : (k, ts) ∈ m := by
  induction m with
  | nil => simp [findSection] at h
  | cons e rest ih =>
    by_cases hk : e.1 = k
    · rw [findSection, hk] at h
      simp at h
      rw [← hk, ← h]
      exact List.mem_cons_self _ _
    · rw [findSection] at h
      simp [hk] at h
      exact List.mem_cons_of_mem _ (ih h)

theorem noThrowState_find (st : GpioComprehensiveTest) (h : noThrowState st = true)
    (k : GpioTestSection) (ts : TestSection)
    (hf : findSection st.test_sections k = some ts) :
    ∀ tc ∈ ts.tests, tc.throws = none := by
  intro tc htc
  have hm := findSection_mem _ _ _ hf
  unfold noThrowState at h
  rw [List.all_eq_true] at h
  have h2 := h _ hm
  rw [List.all_eq_true] at h2
  exact Option.isNone_iff_eq_none.mp (h2 _ htc)

theorem runSections_no_throw (ks : List GpioTestSection) (st : GpioComprehensiveTest)
    (h : noThrowState st = true) :
    runSections st ks =
      ({ st with all_results :=
          st.all_results ++ (ks.map (sectionOutcomes st.test_sections)).flatten },
       none) := by
  induction ks generalizing st with
  | nil => simp [runSections]
  | cons k rest ih =>
    cases hf : findSection st.test_sections k with
    | none =>
      rw [runSections, runSection_not_found st k hf]
      rw [ih st h]
      simp [sectionOutcomes, hf]
    | some ts =>
      by_cases he : ts.enabled = true
      · have hnt := noThrowState_find st h k ts hf
        rw [runSections, runSection_enabled_no_throw st k ts hf he hnt]
        rw [ih _ (by unfold noThrowState at h ⊢; exact h)]
        simp [sectionOutcomes, hf, he, List.append_assoc]
      · rw [runSections, runSection_disabled st k ts hf (Bool.not_eq_true ts.enabled ▸ he)]
        rw [ih st h]
        simp [sectionOutcomes, hf, Bool.not_eq_true ts.enabled ▸ he]

end GpioTest

/-- The registry entry `ALL_SECTIONS` exactly as `initializeTestSections`
creates it (GpioComprehensiveTest.cpp lines 114-118): enabled, timeout 0 —
and `populateTestSections` (lines 124-180) never adds any test to it, so
its test vector is empty. -/
def c1State : GpioTest.GpioComprehensiveTest :=
  ⟨[(GpioTest.GpioTestSection.ALL_SECTIONS,
     ⟨"All GPIO Tests", "Runs all GPIO test sections in sequence", [], true, 0⟩)], []⟩

/-- C1: evaluation of the summary computations at a zero-count denominator.
The claim says every group-level and run-level success rate and average
duration report `0` with no division by a zero count.  The code disagrees:
`runSection` (line 233) computes `passed * 100.0 / tests.size()` and
`printSectionResults` (Spi, lines 421 and 423) computes
`passedTests / totalTests * 100` and `totalDuration / totalTests`, all
unguarded — with a zero count they perform the division and report NaN
(`none` here), not `0`; `printOverallSummary` (line 323) is likewise
unguarded.  Only `getAverageExecutionTime` (lines 355-358) has the guard
and reports `0`. -/
theorem c1_zero_count_summary_evaluation :
    (GpioTest.runSection c1State GpioTest.GpioTestSection.ALL_SECTIONS).summary =
      some ⟨0, 0, 0, none⟩ ∧
    SpiTest.printSectionResults ⟨"Initialization", 0, 0, 0, 0⟩ = ⟨none, none⟩ ∧
    GpioTest.printOverallSummary ⟨[], []⟩ = ⟨0, 0, 0, none, 0⟩ ∧
    GpioTest.getAverageExecutionTime ⟨[], []⟩ = 0 := by
  refine ⟨?_, ?_, ?_, ?_⟩ <;> rfl

/-- A registry whose `GPIO_INTERRUPTS` entry is disabled but holds one
(non-throwing, passing) test case; the accumulated result list is empty. -/
def c2State : GpioTest.GpioComprehensiveTest :=
  ⟨[(GpioTest.GpioTestSection.GPIO_INTERRUPTS,
     ⟨"GPIO Interrupts",
      "Tests GPIO interrupt functionality, edge detection, and interrupt handling",
      [⟨⟨"GPIO Rising Edge Interrupt", true, "Test passed successfully", 0⟩, none, 1⟩],
      false, 35⟩)], []⟩

/-- C2 counterexample: `runSelectedSections` does NOT bypass the enabled
flag.  Selecting the disabled one-test group `GPIO_INTERRUPTS` explicitly
runs nothing: the state (including the accumulated result list) is
returned unchanged, because `runSelectedSections` (lines 387-391) calls
`runSection`, which returns early on `!test_section.enabled`
(lines 190-193). -/
theorem c2_selected_disabled_group_not_run :
    GpioTest.isSectionEnabled c2State GpioTest.GpioTestSection.GPIO_INTERRUPTS = false ∧
    GpioTest.getSectionTestCount c2State GpioTest.GpioTestSection.GPIO_INTERRUPTS = 1 ∧
    GpioTest.runSelectedSections c2State [GpioTest.GpioTestSection.GPIO_INTERRUPTS] =
      (c2State, none) := by
  refine ⟨rfl, rfl, rfl⟩

/-- C2 (amended): `runSelectedSections` calls `runSection` on exactly the
given identifiers in the given order, but `runSection` respects the
`enabled` flag, so each selected group contributes its cases' outcomes
(in order) only when it is registered AND enabled; a disabled or unknown
selected group contributes nothing.  Stated for callables that terminate
normally. -/
theorem c2_runSelected_respects_enabled_flag (st : GpioTest.GpioComprehensiveTest)
    (ks : List GpioTest.GpioTestSection) (h : GpioTest.noThrowState st = true) :
    GpioTest.runSelectedSections st ks =
      ({ st with all_results :=
          st.all_results ++ (ks.map (GpioTest.sectionOutcomes st.test_sections)).flatten },
       none) :=
  GpioTest.runSections_no_throw ks st h

/-- A registry with an enabled one-test `BASIC_GPIO_OPERATIONS` group and a
disabled one-test `GPIO_INTERRUPTS` group, no callable throwing. -/
def c2wState : GpioTest.GpioComprehensiveTest :=
  ⟨[(GpioTest.GpioTestSection.BASIC_GPIO_OPERATIONS,
     ⟨"Basic GPIO Operations",
      "Tests basic GPIO functionality including pin configuration, read/write operations",
      [⟨⟨"GPIO Pin Configuration", true, "Test passed successfully", 0⟩, none, 2⟩],
      true, 25⟩),
    (GpioTest.GpioTestSection.GPIO_INTERRUPTS,
     ⟨"GPIO Interrupts",
      "Tests GPIO interrupt functionality, edge detection, and interrupt handling",
      [⟨⟨"GPIO Rising Edge Interrupt", true, "Test passed successfully", 0⟩, none, 3⟩],
      false, 35⟩)], []⟩

/-- Witness for C2 (amended) at a concrete selection of an enabled and a
disabled group. -/
theorem c2_runSelected_respects_enabled_flag_witness :
    GpioTest.noThrowState c2wState = true ∧
    GpioTest.runSelectedSections c2wState
        [GpioTest.GpioTestSection.BASIC_GPIO_OPERATIONS,
         GpioTest.GpioTestSection.GPIO_INTERRUPTS] =
      ({ c2wState with all_results := c2wState.all_results ++
          (([GpioTest.GpioTestSection.BASIC_GPIO_OPERATIONS,
             GpioTest.GpioTestSection.GPIO_INTERRUPTS]).map
            (GpioTest.sectionOutcomes c2wState.test_sections)).flatten },
       none) :=
  ⟨by decide,
   c2_runSelected_respects_enabled_flag c2wState
     [GpioTest.GpioTestSection.BASIC_GPIO_OPERATIONS,
      GpioTest.GpioTestSection.GPIO_INTERRUPTS] (by decide)⟩

/-- C3: for a registered, enabled group with N (normally terminating)
cases, `runSection` appends exactly one outcome per case, in the order the
cases are stored, with no exception; nothing in the loop (lines 201-226)
consults the `passed` flag to skip or abort, so any mix of failing cases
still yields all N outcomes. -/
theorem c3_runGroup_every_case_in_order (st : GpioTest.GpioComprehensiveTest)
    (k : GpioTest.GpioTestSection) (ts : GpioTest.TestSection)
    (hf : GpioTest.findSection st.test_sections k = some ts)
    (he : ts.enabled = true)
    (hnt : ∀ tc ∈ ts.tests, tc.throws = none) :
    (GpioTest.runSection st k).state.all_results =
      st.all_results ++ ts.tests.map GpioTest.retResult ∧
    (GpioTest.runSection st k).state.all_results.length =
      st.all_results.length + ts.tests.length ∧
    (GpioTest.runSection st k).exn = none := by
  rw [GpioTest.runSection_enabled_no_throw st k ts hf he hnt]
  simp

/-- The `BASIC_GPIO_OPERATIONS` group used in the C3 witness: enabled,
three cases of which the middle one fails. -/
def c3Sec : GpioTest.TestSection :=
  ⟨"Basic GPIO Operations",
   "Tests basic GPIO functionality including pin configuration, read/write operations",
   [⟨⟨"GPIO Pin Configuration", true, "Test passed successfully", 0⟩, none, 1⟩,
    ⟨⟨"GPIO Digital Write", false, "boom", 0⟩, none, 2⟩,
    ⟨⟨"GPIO Digital Read", true, "Test passed successfully", 0⟩, none, 3⟩],
   true, 25⟩

/-- A registry holding `c3Sec` under `BASIC_GPIO_OPERATIONS`, with an
empty accumulated result list. -/
def c3State : GpioTest.GpioComprehensiveTest :=
  ⟨[(GpioTest.GpioTestSection.BASIC_GPIO_OPERATIONS, c3Sec)], []⟩

/-- Witness for C3: the three-case group (one case failing) yields exactly
three outcomes in order, no exception. -/
theorem c3_runGroup_every_case_in_order_witness :
    (GpioTest.runSection c3State GpioTest.GpioTestSection.BASIC_GPIO_OPERATIONS).state.all_results =
      c3State.all_results ++ c3Sec.tests.map GpioTest.retResult ∧
    (GpioTest.runSection c3State GpioTest.GpioTestSection.BASIC_GPIO_OPERATIONS).state.all_results.length =
      c3State.all_results.length + c3Sec.tests.length ∧
    (GpioTest.runSection c3State GpioTest.GpioTestSection.BASIC_GPIO_OPERATIONS).exn = none :=
  c3_runGroup_every_case_in_order c3State GpioTest.GpioTestSection.BASIC_GPIO_OPERATIONS c3Sec
    (by decide) rfl (by decide)

/-- C4: `runSection` on a registered but disabled group is a complete
no-op: it returns with no summary and no exception, and the state — in
particular the accumulated result list and all counts derived from it —
is exactly the state before the call (lines 190-193). -/
theorem c4_runGroup_disabled_unchanged (st : GpioTest.GpioComprehensiveTest)
    (k : GpioTest.GpioTestSection) (ts : GpioTest.TestSection)
    (hf : GpioTest.findSection st.test_sections k = some ts)
    (hd : ts.enabled = false) :
    GpioTest.runSection st k = ⟨st, none, none⟩ ∧
    (GpioTest.runSection st k).state.all_results = st.all_results ∧
    GpioTest.getTotalTestCount (GpioTest.runSection st k).state =
      GpioTest.getTotalTestCount st ∧
    GpioTest.getPassedTestCount (GpioTest.runSection st k).state =
      GpioTest.getPassedTestCount st ∧
    GpioTest.getFailedTestCount (GpioTest.runSection st k).state =
      GpioTest.getFailedTestCount st ∧
    GpioTest.getTotalExecutionTime (GpioTest.runSection st k).state =
      GpioTest.getTotalExecutionTime st := by
  have h := GpioTest.runSection_disabled st k ts hf hd
  rw [h]
  exact ⟨rfl, rfl, rfl, rfl, rfl, rfl⟩

/-- Witness for C4 at the disabled one-test registry `c2State` (the result
list of which is empty before the call). -/
theorem c4_runGroup_disabled_unchanged_witness :
    GpioTest.runSection c2State GpioTest.GpioTestSection.GPIO_INTERRUPTS =
      ⟨c2State, none, none⟩ ∧
    (GpioTest.runSection c2State GpioTest.GpioTestSection.GPIO_INTERRUPTS).state.all_results =
      c2State.all_results ∧
    GpioTest.getTotalTestCount (GpioTest.runSection c2State GpioTest.GpioTestSection.GPIO_INTERRUPTS).state =
      GpioTest.getTotalTestCount c2State ∧
    GpioTest.getPassedTestCount (GpioTest.runSection c2State GpioTest.GpioTestSection.GPIO_INTERRUPTS).state =
      GpioTest.getPassedTestCount c2State ∧
    GpioTest.getFailedTestCount (GpioTest.runSection c2State GpioTest.GpioTestSection.GPIO_INTERRUPTS).state =
      GpioTest.getFailedTestCount c2State ∧
    GpioTest.getTotalExecutionTime (GpioTest.runSection c2State GpioTest.GpioTestSection.GPIO_INTERRUPTS).state =
      GpioTest.getTotalExecutionTime c2State :=
  c4_runGroup_disabled_unchanged c2State GpioTest.GpioTestSection.GPIO_INTERRUPTS
    ⟨"GPIO Interrupts",
     "Tests GPIO interrupt functionality, edge detection, and interrupt handling",
     [⟨⟨"GPIO Rising Edge Interrupt", true, "Test passed successfully", 0⟩, none, 1⟩],
     false, 35⟩ (by decide) rfl

/-- C5: `runSection` on an identifier not present in the registry is a
complete no-op that returns normally: the `find` guard at lines 184-187
prints an error and returns, so the state (and with it the accumulated
result list) is unchanged and no exception escapes. -/
theorem c5_runGroup_unknown_unchanged (st : GpioTest.GpioComprehensiveTest)
    (k : GpioTest.GpioTestSection)
    (hf : GpioTest.findSection st.test_sections k = none) :
    GpioTest.runSection st k = ⟨st, none, none⟩ ∧
    (GpioTest.runSection st k).state.all_results = st.all_results ∧
    (GpioTest.runSection st k).exn = none := by
  have h := GpioTest.runSection_not_found st k hf
  rw [h]
  exact ⟨rfl, rfl, rfl⟩

/-- Witness for C5: the registry `c3State` has no `GPIO_EDGE_CASES` entry;
running that identifier changes nothing and raises nothing. -/
theorem c5_runGroup_unknown_unchanged_witness :
    GpioTest.runSection c3State GpioTest.GpioTestSection.GPIO_EDGE_CASES =
      ⟨c3State, none, none⟩ ∧
    (GpioTest.runSection c3State GpioTest.GpioTestSection.GPIO_EDGE_CASES).state.all_results =
      c3State.all_results ∧
    (GpioTest.runSection c3State GpioTest.GpioTestSection.GPIO_EDGE_CASES).exn = none :=
  c5_runGroup_unknown_unchanged c3State GpioTest.GpioTestSection.GPIO_EDGE_CASES (by decide)

/-- The throwing callable used for C6. -/
def c6Throwing : GpioTest.TestCallable :=
  ⟨⟨"GPIO Digital Write", true, "Test passed successfully", 0⟩, some "boom", 2⟩

/-- The `BASIC_GPIO_OPERATIONS` group used for C6: enabled, three cases of
which the middle one terminates abnormally. -/
def c6Sec : GpioTest.TestSection :=
  ⟨"Basic GPIO Operations",
   "Tests basic GPIO functionality including pin configuration, read/write operations",
   [⟨⟨"GPIO Pin Configuration", true, "Test passed successfully", 0⟩, none, 1⟩,
    c6Throwing,
    ⟨⟨"GPIO Digital Read", true, "Test passed successfully", 0⟩, none, 3⟩],
   true, 25⟩

/-- A registry holding `c6Sec` under `BASIC_GPIO_OPERATIONS`, with an
empty accumulated result list. -/
def c6State : GpioTest.GpioComprehensiveTest :=
  ⟨[(GpioTest.GpioTestSection.BASIC_GPIO_OPERATIONS, c6Sec)], []⟩

/-- C6 counterexample: the GPIO runner does NOT convert an abnormally
terminating callable into a recorded `passed = false` outcome.  The
invocation at line 205 (`TestResult result = test_section.tests[i]();`)
has no try/catch, so the exception escapes `runSection`: here the second
of three cases throws, the exception propagates (`exn = some "boom"`),
only the one result pushed before the throw is recorded, no failed
outcome is recorded for the faulting case, and the remaining case never
runs. -/
theorem c6_gpio_fault_propagates_past_runner :
    (GpioTest.runSection c6State GpioTest.GpioTestSection.BASIC_GPIO_OPERATIONS).exn =
      some "boom" ∧
    (GpioTest.runSection c6State GpioTest.GpioTestSection.BASIC_GPIO_OPERATIONS).state.all_results.length = 1 ∧
    (GpioTest.runSection c6State GpioTest.GpioTestSection.BASIC_GPIO_OPERATIONS).summary = none := by
  refine ⟨rfl, rfl, rfl⟩

/-- C6 (amended): only the SPI harness converts abnormal termination.
`runTest` (Spi, lines 274-298) wraps the callable in try/catch and turns
ANY thrown exception into a recorded outcome with `passed = false` and the
synthetic message ERROR, so no fault propagates past it.  The GPIO runner
(lines 204-208) performs no such conversion: if a case throws after a
prefix of normally terminating cases, the exception escapes `runSection`,
only the prefix outcomes are recorded, and the remaining cases of the
group are skipped. -/
theorem c6_fault_conversion_spi_only :
    (∀ (c : SpiTest.SpiCallable) (m : Nat), c.throws = true →
        SpiTest.runTest c m = ⟨false, "ERROR", m⟩) ∧
    (∀ (st : GpioTest.GpioComprehensiveTest) (k : GpioTest.GpioTestSection)
        (ts : GpioTest.TestSection) (pre rest : List GpioTest.TestCallable)
        (tcf : GpioTest.TestCallable) (e : String),
      GpioTest.findSection st.test_sections k = some ts → ts.enabled = true →
      ts.tests = pre ++ tcf :: rest → (∀ tc ∈ pre, tc.throws = none) →
      tcf.throws = some e →
      GpioTest.runSection st k =
        ⟨{ st with all_results := st.all_results ++ pre.map GpioTest.retResult },
         none, some e⟩) := by
  constructor
  · intro c m hc
    simp [SpiTest.runTest, hc]
  · intro st k ts pre rest tcf e hf he hs hp ht
    exact GpioTest.runSection_first_throw st k ts pre tcf rest e hf he hs hp ht

/-- Witness for C6 (amended): both conjuncts applied at concrete inputs —
a throwing SPI callable, and the concrete GPIO registry `c6State` whose
second case throws. -/
theorem c6_fault_conversion_spi_only_witness :
    SpiTest.runTest ⟨true, true⟩ 7 = ⟨false, "ERROR", 7⟩ ∧
    GpioTest.runSection c6State GpioTest.GpioTestSection.BASIC_GPIO_OPERATIONS =
      ⟨{ c6State with all_results := c6State.all_results ++
          ([⟨⟨"GPIO Pin Configuration", true, "Test passed successfully", 0⟩, none, 1⟩] :
            List GpioTest.TestCallable).map GpioTest.retResult },
       none, some "boom"⟩ :=
  ⟨c6_fault_conversion_spi_only.1 ⟨true, true⟩ 7 rfl,
   c6_fault_conversion_spi_only.2 c6State GpioTest.GpioTestSection.BASIC_GPIO_OPERATIONS c6Sec
     [⟨⟨"GPIO Pin Configuration", true, "Test passed successfully", 0⟩, none, 1⟩]
     [⟨⟨"GPIO Digital Read", true, "Test passed successfully", 0⟩, none, 3⟩]
     c6Throwing "boom" (by decide) rfl rfl (by decide) rfl⟩

/-- The all-pass hardware environment for the PWM model. -/
def c7Env : PwmTest.PwmEnv := ⟨true, true, true, true, true⟩

/-- C7 counterexample: results are cleared automatically between PWM
comprehensive runs.  With every section and group enabled (the source
defaults, lines 43-44), one `run_pwm_comprehensive_tests` call records
23 results (5 + 5 + 5 + 5 + 1 + 1 + 1); a second consecutive call,
without any explicit clear, again leaves 23 — not 46 — because the runner
resets `test_result_count` to 0 at its start (line 466).  Accumulated
results therefore do NOT survive into the next run. -/
theorem c7_pwm_run_auto_clears :
    (PwmTest.run_pwm_comprehensive_tests c7Env PwmTest.pwmDefaultState).test_results.length = 23 ∧
    (PwmTest.run_pwm_comprehensive_tests c7Env
      (PwmTest.run_pwm_comprehensive_tests c7Env PwmTest.pwmDefaultState)).test_results.length = 23 := by
  constructor
  · rfl
  · rfl

/-- C7 (amended): the GPIO engine accumulates — starting from an empty
result list, running the same registered, enabled group (with normally
terminating cases) twice without an intervening `clearResults` yields
`getTotalTestCount == 2 * N` (each `runSection` appends to `all_results`,
lines 224-226, and nothing clears it) — whereas the PWM comprehensive
runner resets the accumulated results at the start of each run. -/
theorem c7_gpio_runGroup_twice_doubles (st : GpioTest.GpioComprehensiveTest)
    (k : GpioTest.GpioTestSection) (ts : GpioTest.TestSection)
    (hf : GpioTest.findSection st.test_sections k = some ts)
    (he : ts.enabled = true)
    (hnt : ∀ tc ∈ ts.tests, tc.throws = none)
    (h0 : st.all_results = []) :
    GpioTest.getTotalTestCount
      (GpioTest.runSection (GpioTest.runSection st k).state k).state =
      2 * ts.tests.length := by
  have h1 := GpioTest.runSection_enabled_no_throw st k ts hf he hnt
  rw [h1]
  have hf2 : GpioTest.findSection
      ({ st with all_results := st.all_results ++ ts.tests.map GpioTest.retResult } :
        GpioTest.GpioComprehensiveTest).test_sections k = some ts := hf
  have h2 := GpioTest.runSection_enabled_no_throw _ k ts hf2 he hnt
  rw [h2]
  simp [GpioTest.getTotalTestCount, h0, two_mul]

/-- Witness for C7 (amended) at the concrete three-case registry
`c3State`. -/
theorem c7_gpio_runGroup_twice_doubles_witness :
    GpioTest.getTotalTestCount
      (GpioTest.runSection
        (GpioTest.runSection c3State GpioTest.GpioTestSection.BASIC_GPIO_OPERATIONS).state
        GpioTest.GpioTestSection.BASIC_GPIO_OPERATIONS).state =
      2 * c3Sec.tests.length :=
  c7_gpio_runGroup_twice_doubles c3State GpioTest.GpioTestSection.BASIC_GPIO_OPERATIONS c3Sec
    (by decide) rfl (by decide) rfl

namespace GpioTest

theorem findSection_sweep_all (g : TestSection → TestSection)
    (m : List (GpioTestSection × TestSection)) :
    findSection (m.map (fun e =>
        if e.1 = GpioTestSection.ALL_SECTIONS then e else (e.1, g e.2)))
      GpioTestSection.ALL_SECTIONS =
    findSection m GpioTestSection.ALL_SECTIONS := by
  induction m with
  | nil => rfl
  | cons e rest ih =>
    obtain ⟨k1, ts1⟩ := e
    rw [List.map_cons]
    by_cases h : k1 = GpioTestSection.ALL_SECTIONS
    · subst h
      have hhead :
          (if ((GpioTestSection.ALL_SECTIONS, ts1) : GpioTestSection × TestSection).1 =
              GpioTestSection.ALL_SECTIONS then
            ((GpioTestSection.ALL_SECTIONS, ts1) : GpioTestSection × TestSection)
          else (((GpioTestSection.ALL_SECTIONS, ts1) : GpioTestSection × TestSection).1,
            g ((GpioTestSection.ALL_SECTIONS, ts1) : GpioTestSection × TestSection).2)) =
          ((GpioTestSection.ALL_SECTIONS, ts1) : GpioTestSection × TestSection) := by
        simp
      rw [hhead]
      simp [findSection]
    · have hhead :
          (if ((k1, ts1) : GpioTestSection × TestSection).1 =
              GpioTestSection.ALL_SECTIONS then ((k1, ts1) : GpioTestSection × TestSection)
          else (((k1, ts1) : GpioTestSection × TestSection).1,
            g ((k1, ts1) : GpioTestSection × TestSection).2)) =
          ((k1, g ts1) : GpioTestSection × TestSection) := by
        simp [h]
      rw [hhead]
      simp [findSection, h, ih]

theorem findSection_sweep_other (g : TestSection → TestSection)
    (m : List (GpioTestSection × TestSection)) (k : GpioTestSection)
    (hk : k ≠ GpioTestSection.ALL_SECTIONS) :
    findSection (m.map (fun e =>
        if e.1 = GpioTestSection.ALL_SECTIONS then e else (e.1, g e.2))) k =
    (findSection m k).map g := by
  induction m with
  | nil => rfl
  | cons e rest ih =>
    obtain ⟨k1, ts1⟩ := e
    rw [List.map_cons]
    by_cases h : k1 = GpioTestSection.ALL_SECTIONS
    · subst h
      have hne : GpioTestSection.ALL_SECTIONS ≠ k := fun hc => hk hc.symm
      have hhead :
          (if ((GpioTestSection.ALL_SECTIONS, ts1) : GpioTestSection × TestSection).1 =
              GpioTestSection.ALL_SECTIONS then
            ((GpioTestSection.ALL_SECTIONS, ts1) : GpioTestSection × TestSection)
          else (((GpioTestSection.ALL_SECTIONS, ts1) : GpioTestSection × TestSection).1,
            g ((GpioTestSection.ALL_SECTIONS, ts1) : GpioTestSection × TestSection).2)) =
          ((GpioTestSection.ALL_SECTIONS, ts1) : GpioTestSection × TestSection) := by
        simp
      rw [hhead]
      simp [findSection, hne, ih]
    · have hhead :
          (if ((k1, ts1) : GpioTestSection × TestSection).1 =
              GpioTestSection.ALL_SECTIONS then ((k1, ts1) : GpioTestSection × TestSection)
          else (((k1, ts1) : GpioTestSection × TestSection).1,
            g ((k1, ts1) : GpioTestSection × TestSection).2)) =
          ((k1, g ts1) : GpioTestSection × TestSection) := by
        simp [h]
      rw [hhead]
      by_cases h2 : k1 = k
      · subst h2
        simp [findSection]
      · simp [findSection, h2, ih]

end GpioTest

/-- C8: `clearResults` (lines 361-363) empties the accumulated result
list, so every derived count (`getTotalTestCount`, `getPassedTestCount`,
`getFailedTestCount`, `getTotalExecutionTime`) is 0 afterwards, while the
section map — and with it every group's `enabled` flag and
`timeout_seconds` — is untouched (lookup of every key returns exactly the
entry it returned before the call). -/
theorem c8_clearResults_resets_counts_only (st : GpioTest.GpioComprehensiveTest) :
    GpioTest.getTotalTestCount (GpioTest.clearResults st) = 0 ∧
    GpioTest.getPassedTestCount (GpioTest.clearResults st) = 0 ∧
    GpioTest.getFailedTestCount (GpioTest.clearResults st) = 0 ∧
    GpioTest.getTotalExecutionTime (GpioTest.clearResults st) = 0 ∧
    (GpioTest.clearResults st).all_results = [] ∧
    (GpioTest.clearResults st).test_sections = st.test_sections ∧
    (∀ k, GpioTest.findSection (GpioTest.clearResults st).test_sections k =
      GpioTest.findSection st.test_sections k) ∧
    (∀ k, GpioTest.isSectionEnabled (GpioTest.clearResults st) k =
      GpioTest.isSectionEnabled st k) := by
  exact ⟨rfl, rfl, rfl, rfl, rfl, rfl, fun k => rfl, fun k => rfl⟩

/-- C9: the synthetic `ALL_SECTIONS` alias is never iterated as a group:
it is not among the keys `runAllSections` iterates (lines 239-243), it is
not reported by `getEnabledSections` (lines 280-288), and the bulk sweeps
`enableAllSections`/`disableAllSections` (lines 254-268) leave its entry
exactly as it was while setting the `enabled` flag of every other
registered group. -/
theorem c9_all_sections_alias_never_iterated (st : GpioTest.GpioComprehensiveTest) :
    GpioTest.GpioTestSection.ALL_SECTIONS ∉ GpioTest.runAllKeys st ∧
    GpioTest.GpioTestSection.ALL_SECTIONS ∉ GpioTest.getEnabledSections st ∧
    GpioTest.findSection (GpioTest.enableAllSections st).test_sections
        GpioTest.GpioTestSection.ALL_SECTIONS =
      GpioTest.findSection st.test_sections GpioTest.GpioTestSection.ALL_SECTIONS ∧
    GpioTest.findSection (GpioTest.disableAllSections st).test_sections
        GpioTest.GpioTestSection.ALL_SECTIONS =
      GpioTest.findSection st.test_sections GpioTest.GpioTestSection.ALL_SECTIONS ∧
    (∀ k, k ≠ GpioTest.GpioTestSection.ALL_SECTIONS →
      GpioTest.findSection (GpioTest.enableAllSections st).test_sections k =
        (GpioTest.findSection st.test_sections k).map
          (fun ts => { ts with enabled := true }) ∧
      GpioTest.findSection (GpioTest.disableAllSections st).test_sections k =
        (GpioTest.findSection st.test_sections k).map
          (fun ts => { ts with enabled := false })) := by
  refine ⟨?_, ?_, ?_, ?_, ?_⟩
  · intro hmem
    rw [GpioTest.runAllKeys, List.mem_filter] at hmem
    simp at hmem
  · intro hmem
    rw [GpioTest.getEnabledSections, List.mem_map] at hmem
    obtain ⟨e, he, hfst⟩ := hmem
    rw [List.mem_filter] at he
    rw [hfst] at he
    simp at he
  · exact GpioTest.findSection_sweep_all (fun ts => { ts with enabled := true })
      st.test_sections
  · exact GpioTest.findSection_sweep_all (fun ts => { ts with enabled := false })
      st.test_sections
  · intro k hk
    exact ⟨GpioTest.findSection_sweep_other (fun ts => { ts with enabled := true })
        st.test_sections k hk,
      GpioTest.findSection_sweep_other (fun ts => { ts with enabled := false })
        st.test_sections k hk⟩

/-- Witness for C9 at the two-entry registry `c2wState` extended with an
`ALL_SECTIONS` entry, checking the sweep conjunct at the non-alias key
`BASIC_GPIO_OPERATIONS`. -/
theorem c9_all_sections_alias_never_iterated_witness :
    GpioTest.GpioTestSection.ALL_SECTIONS ∉ GpioTest.runAllKeys c1State ∧
    GpioTest.GpioTestSection.BASIC_GPIO_OPERATIONS ≠
      GpioTest.GpioTestSection.ALL_SECTIONS ∧
    GpioTest.findSection (GpioTest.enableAllSections c1State).test_sections
        GpioTest.GpioTestSection.BASIC_GPIO_OPERATIONS =
      (GpioTest.findSection c1State.test_sections
        GpioTest.GpioTestSection.BASIC_GPIO_OPERATIONS).map
          (fun ts => { ts with enabled := true }) :=
  ⟨(c9_all_sections_alias_never_iterated c1State).1,
   by decide,
   ((c9_all_sections_alias_never_iterated c1State).2.2.2.2
     GpioTest.GpioTestSection.BASIC_GPIO_OPERATIONS (by decide)).1⟩

/-- C10: every accessor and mutator taking a section identifier is safe on
an identifier not present in the registry: `isSectionEnabled` returns
`false` (lines 270-273), `getSectionTestCount` returns `0` (lines
275-278), and `enableSection` (lines 248-252) and `setSectionTimeout`
(lines 377-381) are silent no-ops leaving the whole object — every
group's enabled flag, timeout and case list — unchanged. -/
theorem c10_unknown_identifier_safe_defaults (st : GpioTest.GpioComprehensiveTest)
    (k : GpioTest.GpioTestSection) (e : Bool) (t : Int)
    (hf : GpioTest.findSection st.test_sections k = none) :
    GpioTest.isSectionEnabled st k = false ∧
    GpioTest.getSectionTestCount st k = 0 ∧
    GpioTest.enableSection st k e = st ∧
    GpioTest.setSectionTimeout st k t = st := by
  refine ⟨?_, ?_, ?_, ?_⟩
  · unfold GpioTest.isSectionEnabled
    rw [hf]
  · unfold GpioTest.getSectionTestCount
    rw [hf]
  · unfold GpioTest.enableSection
    rw [hf]
    rfl
  · unfold GpioTest.setSectionTimeout
    rw [hf]
    rfl

/-- Witness for C10: the one-entry registry `c3State` has no
`GPIO_ANALOG_READS` entry; the accessors return the safe defaults and the
mutators change nothing. -/
theorem c10_unknown_identifier_safe_defaults_witness :
    GpioTest.isSectionEnabled c3State GpioTest.GpioTestSection.GPIO_ANALOG_READS = false ∧
    GpioTest.getSectionTestCount c3State GpioTest.GpioTestSection.GPIO_ANALOG_READS = 0 ∧
    GpioTest.enableSection c3State GpioTest.GpioTestSection.GPIO_ANALOG_READS true = c3State ∧
    GpioTest.setSectionTimeout c3State GpioTest.GpioTestSection.GPIO_ANALOG_READS 99 = c3State :=
  c10_unknown_identifier_safe_defaults c3State GpioTest.GpioTestSection.GPIO_ANALOG_READS
    true 99 (by decide)
